import Mathlib

/-!
Verification of the two command flows in `src/examples/src/mint.ts`:
a mint flow (derive account from mnemonic, connect a signing client,
execute one `mint` call, print the transaction hash) and a query flow
(connect a read-only client, issue one `num_tokens` query, print the
result).  All SDK calls (`Secp256k1HdWallet.fromMnemonic` + `getAccounts`,
`SigningCosmWasmClient.connectWithSigner`, `client.execute`,
`CosmWasmClient.connect`, `client.queryContractSmart`) are external to
the repository; they are modelled as oracle fields of a `MintWorld` /
`QueryWorld` record, and each flow is a pure function from its world to
the trace of events it performs together with its final outcome.
Environment variables (`PRIVATE`, `RPC`, `CONTRACT_ADDR`) are `Option
String` fields of the world: the TypeScript non-null assertion `!` has
no runtime effect, so an absent variable flows into the SDK call as
`undefined`, modelled here as `none`.
-/

namespace CwNfts

/-- One account as returned by `wallet.getAccounts()`; the flow only
uses its `address` field. -/
structure Account where
  address : String
deriving DecidableEq, Repr

/-- A coin as attached in the `funds` argument of `client.execute`. -/
structure Coin where
  denom : String
  amount : String
deriving DecidableEq, Repr

/-- The inner object of the mint payload:
`\x7b extension: \x7b\x7d, owner, token_uri \x7d`.  The empty `extension`
object is modelled as `Unit`. -/
structure MintInner where
  extension : Unit
  owner : String
  token_uri : String
deriving DecidableEq, Repr

/-- The execute payload `\x7b mint: ... \x7d` built by the mint flow. -/
structure ExecMsg where
  mint : MintInner
deriving DecidableEq, Repr

/-- The query payload `\x7b num_tokens: \x7b\x7d \x7d` sent by the query
flow. -/
structure NumTokensMsg where
  num_tokens : Unit
deriving DecidableEq, Repr

/-- The full argument list of the single `client.execute` call in the
mint flow.  `contractAddress` is `Option String` because
`process.env.CONTRACT_ADDR!` may be `undefined` at runtime. -/
structure ExecuteCall where
  senderAddress : String
  contractAddress : Option String
  msg : ExecMsg
  fee : String
  memo : String
  funds : List Coin
deriving DecidableEq, Repr

/-- The result of a successful `client.execute`; the flow only reads
`transactionHash`. -/
structure ExecuteResult where
  transactionHash : String
deriving DecidableEq, Repr

/-- A structured contract response, as returned by
`client.queryContractSmart` (arbitrary JSON, opaque to the client). -/
inductive Json where
  | null : Json
  | bool (b : Bool) : Json
  | num (n : Int) : Json
  | str (s : String) : Json
  | arr (xs : List Json) : Json
  | obj (fields : List (String × Json)) : Json
deriving Repr

/-- Observable events of a run of either flow, in program order.
`deriveAttempt` is local key derivation; the three `connect`/`execute`/
`query` attempts are the outbound SDK calls; the two print events are
writes to standard output. -/
inductive Event where
  | deriveAttempt (mnemonic : Option String) (hrp : String) : Event
  | connectSignerAttempt (rpc : Option String) (gasPrice : String) : Event
  | connectAttempt (rpc : Option String) : Event
  | executeAttempt (call : ExecuteCall) : Event
  | queryAttempt (contractAddress : Option String) (msg : NumTokensMsg) : Event
  | printStr (s : String) : Event
  | printJson (j : Json) : Event

/-- Events that reach out to the remote endpoint.  Key derivation and
printing are local. -/
def Event.isNetworkCall : Event → Bool
  | .connectSignerAttempt _ _ => true
  | .connectAttempt _ => true
  | .executeAttempt _ => true
  | .queryAttempt _ _ => true
  | _ => false

/-- Events that are a state-mutating `execute` invocation. -/
def Event.isExecute : Event → Bool
  | .executeAttempt _ => true
  | _ => false

/-- Events that invoke the remote contract (state-mutating execute or
read-only smart query); connecting is not a contract invocation. -/
def Event.isContractInvocation : Event → Bool
  | .executeAttempt _ => true
  | .queryAttempt _ _ => true
  | _ => false

/-- Events that write to standard output. -/
def Event.isPrint : Event → Bool
  | .printStr _ => true
  | .printJson _ => true
  | _ => false

/-- The environment and the external SDK, as seen by the mint flow.
The three `env` fields are the environment variables the script reads;
the three `sdk` fields are the behaviours of the external library calls
in this run. -/
structure MintWorld where
  envPRIVATE : Option String
  envRPC : Option String
  envCONTRACT : Option String
  sdkFromMnemonicGetAccounts : Option String → Except String (List Account)
  sdkConnectWithSigner : Option String → Except String Unit
  sdkExecute : ExecuteCall → Except String ExecuteResult

/-- The environment and the external SDK, as seen by the query flow. -/
structure QueryWorld where
  envRPC : Option String
  envCONTRACT : Option String
  sdkConnect : Option String → Except String Unit
  sdkQueryContractSmart : Option String → NumTokensMsg → Except String Json

/-- The gas price string passed to `connectWithSigner`. -/
def gasPriceString : String := "0.1usei"

/-- The fixed token URI in the mint payload. -/
def tokenUriString : String := "https://alpaca.com/alpaca.jpg"

/-- The fixed funds attached to the execute call. -/
def mintFunds : List Coin := [{ denom := "usei", amount := "10000" }]

/-- The bech32 human-readable part passed to `fromMnemonic`. -/
def seiHrp : String := "sei"

/-- The runtime error raised by destructuring `const [\x7b address \x7d] = ...`
when `getAccounts()` returns an empty array. -/
def emptyAccountsError : String :=
  "TypeError: cannot destructure first element of empty accounts array"

/-- The query payload literal `\x7b num_tokens: \x7b\x7d \x7d`. -/
def numTokensMsg : NumTokensMsg := { num_tokens := () }

/-- The argument list of the execute call as the mint flow builds it:
sender is the derived address, the payload's `owner` is the same
address, `token_uri` is fixed, fee mode is the string `"auto"`, memo is
`""`, funds are `10000usei`. -/
def mkMintCall (address : String) (contractAddress : Option String) : ExecuteCall :=
  { senderAddress := address
    contractAddress := contractAddress
    msg := { mint := { extension := (), owner := address, token_uri := tokenUriString } }
    fee := "auto"
    memo := ""
    funds := mintFunds }

/-- The mint flow of `src/examples/src/mint.ts` (first async IIFE):
derive accounts from `PRIVATE` with hrp `"sei"`, destructure the first
account, connect a signing client to `RPC` with gas price `"0.1usei"`,
execute one mint call against `CONTRACT_ADDR`, print the transaction
hash.  Returns the event trace and the outcome. -/
def mintFlow (w : MintWorld) : List Event × Except String String :=
  let ev0 : List Event := [Event.deriveAttempt w.envPRIVATE seiHrp]
  match w.sdkFromMnemonicGetAccounts w.envPRIVATE with
  | .error e => (ev0, .error e)
  | .ok [] => (ev0, .error emptyAccountsError)
  | .ok (acct :: _) =>
    let ev1 := ev0 ++ [Event.connectSignerAttempt w.envRPC gasPriceString]
    match w.sdkConnectWithSigner w.envRPC with
    | .error e => (ev1, .error e)
    | .ok () =>
      let call := mkMintCall acct.address w.envCONTRACT
      let ev2 := ev1 ++ [Event.executeAttempt call]
      match w.sdkExecute call with
      | .error e => (ev2, .error e)
      | .ok res => (ev2 ++ [Event.printStr res.transactionHash], .ok res.transactionHash)

/-- The query flow of `src/examples/src/mint.ts` (second async IIFE):
connect a read-only client to `RPC`, issue one `num_tokens` smart query
against `CONTRACT_ADDR`, print the structured result. -/
def queryFlow (w : QueryWorld) : List Event × Except String Json :=
  let ev0 : List Event := [Event.connectAttempt w.envRPC]
  match w.sdkConnect w.envRPC with
  | .error e => (ev0, .error e)
  | .ok () =>
    let ev1 := ev0 ++ [Event.queryAttempt w.envCONTRACT numTokensMsg]
    match w.sdkQueryContractSmart w.envCONTRACT numTokensMsg with
    | .error e => (ev1, .error e)
    | .ok r => (ev1 ++ [Event.printJson r], .ok r)

/-- Modelled from the spec: account derivation (`Secp256k1HdWallet.fromMnemonic`
followed by `getAccounts`) is implemented in the external `@cosmjs/launchpad`
package and is not under `src/`.  The spec states the account is "derived
deterministically from a secret phrase under a network-specific address
prefix" and that derivation with hrp `"sei"` "always yields exactly one
address"; accordingly this model maps the phrase, by a fixed function, to a
single bech32-style address under the given hrp. -/
def specDeriveAccounts (mnemonic : String) (hrp : String) : List Account :=
  [{ address :=
      hrp ++ "1" ++
        toString (mnemonic.foldl (fun acc c => (acc * 131 + c.toNat) % 1000000007) 7) }]

/-- A secret phrase the spec considers valid: a non-empty string. -/
def validMnemonic (m : String) : Bool := m != ""

/-- A fully successful concrete mint world: all three environment
variables present, derivation yields one account, connection succeeds,
the contract accepts the mint. -/
def okWorld : MintWorld :=
  { envPRIVATE := some "test test test test test test test test test test test junk"
    envRPC := some "https://rpc.example.org:26657"
    envCONTRACT := some "sei1contract"
    sdkFromMnemonicGetAccounts := fun m =>
      match m with
      | some _ => .ok [{ address := "sei1abc" }]
      | none => .error "mnemonic is undefined"
    sdkConnectWithSigner := fun r =>
      match r with
      | some _ => .ok ()
      | none => .error "endpoint is undefined"
    sdkExecute := fun c =>
      match c.contractAddress with
      | some _ => .ok { transactionHash := "TXHASH" }
      | none => .error "Invalid contract address" }

/-- A concrete mint world whose environment lacks `CONTRACT_ADDR` but has
a valid `PRIVATE` and a reachable `RPC`. -/
def missingContractWorld : MintWorld :=
  { okWorld with envCONTRACT := none }

/-- A concrete mint world whose environment lacks `PRIVATE`. -/
def missingPrivWorld : MintWorld :=
  { okWorld with envPRIVATE := none }

/-- A concrete mint world whose environment lacks `RPC`. -/
def missingRpcWorld : MintWorld :=
  { okWorld with envRPC := none }

/-- A concrete mint world with an unreachable endpoint: the connection
attempt fails. -/
def unreachableWorld : MintWorld :=
  { okWorld with sdkConnectWithSigner := fun _ => .error "connection refused" }

/-- A concrete mint world whose wallet yields an empty account list. -/
def emptyAccountsWorld : MintWorld :=
  { okWorld with sdkFromMnemonicGetAccounts := fun _ => .ok [] }

/-- A fully successful concrete query world: the contract answers the
`num_tokens` query with the object mapping "count" to 5. -/
def okQueryWorld : QueryWorld :=
  { envRPC := some "https://rpc.example.org:26657"
    envCONTRACT := some "sei1contract"
    sdkConnect := fun _ => .ok ()
    sdkQueryContractSmart := fun _ _ => .ok (Json.obj [("count", Json.num 5)]) }

/-- C1: when derivation and connection succeed, the mint flow performs
exactly one execute call, whose payload is the mint object with empty
extension, the derived address as owner, and the fixed token URI; whose
funds are exactly 10000usei; whose fee mode is the automatic `"auto"`
with gas price `"0.1usei"` set at connection; and whose memo is `""`. -/
theorem mint_single_execute_exact_payload (w : MintWorld) (a : Account)
    (rest : List Account)
    (hder : w.sdkFromMnemonicGetAccounts w.envPRIVATE = .ok (a :: rest))
    (hconn : w.sdkConnectWithSigner w.envRPC = .ok ()) :
    (mintFlow w).1.filter Event.isExecute
      = [Event.executeAttempt (mkMintCall a.address w.envCONTRACT)]
    ∧ (mkMintCall a.address w.envCONTRACT).msg
      = { mint := { extension := (), owner := a.address,
                    token_uri := "https://alpaca.com/alpaca.jpg" } }
    ∧ (mkMintCall a.address w.envCONTRACT).funds = [{ denom := "usei", amount := "10000" }]
    ∧ (mkMintCall a.address w.envCONTRACT).fee = "auto"
    ∧ (mkMintCall a.address w.envCONTRACT).memo = ""
    ∧ Event.connectSignerAttempt w.envRPC "0.1usei" ∈ (mintFlow w).1 := by
  rcases hex : w.sdkExecute (mkMintCall a.address w.envCONTRACT) with e | r <;>
    simp only [mkMintCall, mintFunds, tokenUriString] at hex <;>
    simp [mintFlow, hder, hconn, hex, mkMintCall, tokenUriString, mintFunds,
      gasPriceString, Event.isExecute]

/-- C1 witness: the exact-payload theorem instantiated at the successful
concrete world. -/
theorem mint_single_execute_exact_payload_witness :
    (mintFlow okWorld).1.filter Event.isExecute
      = [Event.executeAttempt (mkMintCall "sei1abc" (some "sei1contract"))]
    ∧ (mkMintCall "sei1abc" (some "sei1contract")).msg
      = { mint := { extension := (), owner := "sei1abc",
                    token_uri := "https://alpaca.com/alpaca.jpg" } }
    ∧ (mkMintCall "sei1abc" (some "sei1contract")).funds
      = [{ denom := "usei", amount := "10000" }]
    ∧ (mkMintCall "sei1abc" (some "sei1contract")).fee = "auto"
    ∧ (mkMintCall "sei1abc" (some "sei1contract")).memo = ""
    ∧ Event.connectSignerAttempt (some "https://rpc.example.org:26657") "0.1usei"
        ∈ (mintFlow okWorld).1 :=
  mint_single_execute_exact_payload okWorld { address := "sei1abc" } [] rfl rfl

/-- C2 counterexample: with the secret phrase and the RPC endpoint present
but the contract identifier absent, the mint flow does not fail before a
network call — it connects (a network call) and even attempts the execute
invocation, and only then fails with the SDK's invocation error.  Also the
fee price is a hardcoded literal, not a configurable input that could be
absent. -/
theorem mint_missing_contract_network_call_cex :
    missingContractWorld.envCONTRACT = none
    ∧ (mintFlow missingContractWorld).1.any Event.isNetworkCall = true
    ∧ (mintFlow missingContractWorld).1.filter Event.isNetworkCall
        = [Event.connectSignerAttempt (some "https://rpc.example.org:26657") gasPriceString,
           Event.executeAttempt (mkMintCall "sei1abc" none)]
    ∧ (mintFlow missingContractWorld).2 = .error "Invalid contract address" :=
  ⟨rfl, rfl, rfl, rfl⟩

/-- C2 amended: there is no configuration validation at all.  Only the
absence of the secret phrase stops the flow before any network call
(because the SDK rejects an undefined mnemonic during local derivation);
the fee price is a hardcoded literal that cannot be absent; an absent
RPC URL is only detected at the connection attempt, which is then the
sole network-call event of the run; and an absent contract identifier is
only detected at the execute invocation, after the connection network
call has already been made. -/
theorem mint_config_failure_points :
    (∀ w : MintWorld, ∀ e : String, w.envPRIVATE = none →
        w.sdkFromMnemonicGetAccounts none = .error e →
        (mintFlow w).2 = .error e
        ∧ (mintFlow w).1.any Event.isNetworkCall = false)
    ∧ (∀ w : MintWorld, ∀ a : Account, ∀ rest : List Account,
        w.sdkFromMnemonicGetAccounts w.envPRIVATE = .ok (a :: rest) →
        w.sdkConnectWithSigner w.envRPC = .ok () →
        w.envCONTRACT = none →
        (mintFlow w).1.filter Event.isNetworkCall
          = [Event.connectSignerAttempt w.envRPC gasPriceString,
             Event.executeAttempt (mkMintCall a.address none)])
    ∧ (∀ w : MintWorld, ∀ a : Account, ∀ rest : List Account, ∀ e : String,
        w.sdkFromMnemonicGetAccounts w.envPRIVATE = .ok (a :: rest) →
        w.envRPC = none →
        w.sdkConnectWithSigner none = .error e →
        (mintFlow w).2 = .error e
        ∧ (mintFlow w).1.filter Event.isNetworkCall
          = [Event.connectSignerAttempt none gasPriceString]) := by
  refine ⟨?_, ?_, ?_⟩
  · intro w e hp hd
    simp [mintFlow, hp, hd, Event.isNetworkCall]
  · intro w a rest hder hconn hco
    rcases hex : w.sdkExecute (mkMintCall a.address w.envCONTRACT) with e | r <;>
      simp only [mkMintCall, mintFunds, tokenUriString, hco] at hex <;>
      simp [mintFlow, hder, hconn, hex, hco, mkMintCall, tokenUriString, mintFunds,
        gasPriceString, Event.isNetworkCall]
  · intro w a rest e hder hrpc hconn
    simp [mintFlow, hder, hrpc, hconn, gasPriceString, Event.isNetworkCall]

/-- C2 amended witness: the missing-phrase, missing-contract and
missing-RPC branches instantiated at the concrete worlds lacking the
respective variable. -/
theorem mint_config_failure_points_witness :
    ((mintFlow missingPrivWorld).2 = .error "mnemonic is undefined"
      ∧ (mintFlow missingPrivWorld).1.any Event.isNetworkCall = false)
    ∧ (mintFlow missingContractWorld).1.filter Event.isNetworkCall
        = [Event.connectSignerAttempt (some "https://rpc.example.org:26657") gasPriceString,
           Event.executeAttempt (mkMintCall "sei1abc" none)]
    ∧ ((mintFlow missingRpcWorld).2 = .error "endpoint is undefined"
      ∧ (mintFlow missingRpcWorld).1.filter Event.isNetworkCall
          = [Event.connectSignerAttempt none gasPriceString]) :=
  ⟨mint_config_failure_points.1 missingPrivWorld "mnemonic is undefined" rfl rfl,
   mint_config_failure_points.2.1 missingContractWorld { address := "sei1abc" } []
     rfl rfl rfl,
   mint_config_failure_points.2.2 missingRpcWorld { address := "sei1abc" } []
     "endpoint is undefined" rfl rfl rfl⟩

/-- C3: when the read-only connection succeeds and the contract answers the
`num_tokens` query with a structured response, the query flow returns that
response unmodified, prints it, and performs no state-mutating execute
invocation. -/
theorem query_returns_response_unmodified (w : QueryWorld) (r : Json)
    (hconn : w.sdkConnect w.envRPC = .ok ())
    (hq : w.sdkQueryContractSmart w.envCONTRACT numTokensMsg = .ok r) :
    (queryFlow w).2 = .ok r
    ∧ (queryFlow w).1.any Event.isExecute = false
    ∧ Event.printJson r ∈ (queryFlow w).1 := by
  simp [queryFlow, hconn, hq, Event.isExecute]

/-- C3 witness: the query theorem instantiated at the concrete world whose
contract answers with the object mapping "count" to 5. -/
theorem query_returns_response_unmodified_witness :
    (queryFlow okQueryWorld).2 = .ok (Json.obj [("count", Json.num 5)])
    ∧ (queryFlow okQueryWorld).1.any Event.isExecute = false
    ∧ Event.printJson (Json.obj [("count", Json.num 5)]) ∈ (queryFlow okQueryWorld).1 :=
  query_returns_response_unmodified okQueryWorld (Json.obj [("count", Json.num 5)]) rfl rfl

/-- C4: if the secret phrase is absent (and the SDK rejects an undefined
mnemonic), the mint flow fails at account derivation: its outcome is the
derivation error and its whole trace is the single local derivation
attempt, so no network call is ever made. -/
theorem mint_missing_phrase_fails_at_derivation (w : MintWorld) (e : String)
    (hp : w.envPRIVATE = none)
    (hd : w.sdkFromMnemonicGetAccounts none = .error e) :
    (mintFlow w).2 = .error e
    ∧ (mintFlow w).1 = [Event.deriveAttempt none seiHrp] := by
  simp [mintFlow, hp, hd]

/-- C4 witness: the derivation-failure theorem instantiated at the
concrete world lacking `PRIVATE`. -/
theorem mint_missing_phrase_fails_at_derivation_witness :
    (mintFlow missingPrivWorld).2 = .error "mnemonic is undefined"
    ∧ (mintFlow missingPrivWorld).1 = [Event.deriveAttempt none seiHrp] :=
  mint_missing_phrase_fails_at_derivation missingPrivWorld "mnemonic is undefined" rfl rfl

/-- C5: if derivation succeeds but establishing the connection fails, the
mint flow terminates with that connection error and never attempts an
execute invocation. -/
theorem mint_connect_failure_no_execute (w : MintWorld) (a : Account)
    (rest : List Account) (e : String)
    (hder : w.sdkFromMnemonicGetAccounts w.envPRIVATE = .ok (a :: rest))
    (hconn : w.sdkConnectWithSigner w.envRPC = .error e) :
    (mintFlow w).2 = .error e
    ∧ (mintFlow w).1.any Event.isExecute = false := by
  simp [mintFlow, hder, hconn, Event.isExecute]

/-- C5 witness: the connection-failure theorem instantiated at the
concrete world whose endpoint is unreachable. -/
theorem mint_connect_failure_no_execute_witness :
    (mintFlow unreachableWorld).2 = .error "connection refused"
    ∧ (mintFlow unreachableWorld).1.any Event.isExecute = false :=
  mint_connect_failure_no_execute unreachableWorld { address := "sei1abc" } []
    "connection refused" rfl rfl

/-- C6: in every run of either flow, at most one contract invocation
(execute or smart query) is issued: no retries, no pagination — a single
request/response exchange with the contract at most. -/
theorem flows_at_most_one_invocation :
    (∀ w : MintWorld, ((mintFlow w).1.filter Event.isContractInvocation).length ≤ 1)
    ∧ (∀ w : QueryWorld, ((queryFlow w).1.filter Event.isContractInvocation).length ≤ 1) := by
  constructor
  · intro w
    rcases hd : w.sdkFromMnemonicGetAccounts w.envPRIVATE with e | (_ | ⟨a, rest⟩)
    · simp [mintFlow, hd, Event.isContractInvocation]
    · simp [mintFlow, hd, Event.isContractInvocation]
    · rcases hc : w.sdkConnectWithSigner w.envRPC with e | ⟨⟩
      · simp [mintFlow, hd, hc, Event.isContractInvocation]
      · rcases hx : w.sdkExecute (mkMintCall a.address w.envCONTRACT) with e | r <;>
          simp only [mkMintCall, mintFunds, tokenUriString] at hx <;>
          simp [mintFlow, hd, hc, hx, mkMintCall, mintFunds, tokenUriString,
            Event.isContractInvocation]
  · intro w
    rcases hc : w.sdkConnect w.envRPC with e | ⟨⟩
    · simp [queryFlow, hc, Event.isContractInvocation]
    · rcases hq : w.sdkQueryContractSmart w.envCONTRACT numTokensMsg with e | r <;>
        simp [queryFlow, hc, hq, Event.isContractInvocation]

/-- C7: account derivation with hrp `"sei"` yields exactly one address
for every valid (non-empty) secret phrase, and two derivations from equal
phrases yield the same address. -/
theorem derive_one_address_deterministic (m1 m2 : String)
    (hv : validMnemonic m1 = true) (heq : m1 = m2) :
    (specDeriveAccounts m1 seiHrp).length = 1
    ∧ (specDeriveAccounts m1 seiHrp).map Account.address
      = (specDeriveAccounts m2 seiHrp).map Account.address := by
  subst heq
  exact ⟨rfl, rfl⟩

/-- C7 witness: the derivation theorem instantiated at a concrete
phrase. -/
theorem derive_one_address_deterministic_witness :
    (specDeriveAccounts "abandon ability able" seiHrp).length = 1
    ∧ (specDeriveAccounts "abandon ability able" seiHrp).map Account.address
      = (specDeriveAccounts "abandon ability able" seiHrp).map Account.address :=
  derive_one_address_deterministic "abandon ability able" "abandon ability able"
    (by decide) rfl

/-- C8: a successful mint run prints exactly the transaction hash of the
execute result to standard output, and a successful query run prints
exactly the structured query result. -/
theorem success_prints_result (w : MintWorld) (q : QueryWorld) (h : String) (r : Json)
    (hm : (mintFlow w).2 = .ok h) (hq : (queryFlow q).2 = .ok r) :
    (mintFlow w).1.filter Event.isPrint = [Event.printStr h]
    ∧ (queryFlow q).1.filter Event.isPrint = [Event.printJson r] := by
  constructor
  · rcases hd : w.sdkFromMnemonicGetAccounts w.envPRIVATE with e | (_ | ⟨a, rest⟩)
    · simp [mintFlow, hd] at hm
    · simp [mintFlow, hd] at hm
    · rcases hc : w.sdkConnectWithSigner w.envRPC with e | ⟨⟩
      · simp [mintFlow, hd, hc] at hm
      · rcases hx : w.sdkExecute (mkMintCall a.address w.envCONTRACT) with e | res <;>
          simp only [mkMintCall, mintFunds, tokenUriString] at hx <;>
          simp [mintFlow, hd, hc, hx, mkMintCall, mintFunds, tokenUriString] at hm ⊢
        · simp [hm, Event.isPrint]
  · rcases hc : q.sdkConnect q.envRPC with e | ⟨⟩
    · simp [queryFlow, hc] at hq
    · rcases hqr : q.sdkQueryContractSmart q.envCONTRACT numTokensMsg with e | res <;>
        simp [queryFlow, hc, hqr] at hq ⊢
      · simp [hq, Event.isPrint]

/-- C8 witness: the printing theorem instantiated at the successful
concrete mint and query worlds. -/
theorem success_prints_result_witness :
    (mintFlow okWorld).1.filter Event.isPrint = [Event.printStr "TXHASH"]
    ∧ (queryFlow okQueryWorld).1.filter Event.isPrint
      = [Event.printJson (Json.obj [("count", Json.num 5)])] :=
  success_prints_result okWorld okQueryWorld "TXHASH"
    (Json.obj [("count", Json.num 5)]) rfl rfl

/-- C9: every execute call appearing in a mint-flow trace has its sender
address identical to the `owner` field inside the mint payload, and both
equal the address of the first derived account. -/
theorem mint_sender_equals_owner (w : MintWorld) (c : ExecuteCall)
    (hmem : Event.executeAttempt c ∈ (mintFlow w).1) :
    c.senderAddress = c.msg.mint.owner
    ∧ ∀ a : Account, ∀ rest : List Account,
        w.sdkFromMnemonicGetAccounts w.envPRIVATE = .ok (a :: rest) →
        c.senderAddress = a.address := by
  rcases hd : w.sdkFromMnemonicGetAccounts w.envPRIVATE with e | (_ | ⟨a, rest⟩)
  · simp [mintFlow, hd] at hmem
  · simp [mintFlow, hd] at hmem
  · rcases hc : w.sdkConnectWithSigner w.envRPC with e | ⟨⟩
    · simp [mintFlow, hd, hc] at hmem
    · have hcall : c = mkMintCall a.address w.envCONTRACT := by
        rcases hx : w.sdkExecute (mkMintCall a.address w.envCONTRACT) with e | res <;>
          simp only [mkMintCall, mintFunds, tokenUriString] at hx <;>
          simp [mintFlow, hd, hc, hx, mkMintCall, mintFunds, tokenUriString] at hmem <;>
          simp [mkMintCall, mintFunds, tokenUriString, hmem]
      subst hcall
      refine ⟨rfl, ?_⟩
      intro a2 rest2 hd2
      simp only [Except.ok.injEq, List.cons.injEq] at hd2
      rw [hd2.1]
      rfl

/-- C9 witness: the sender-equals-owner theorem instantiated at the
execute call of the successful concrete world. -/
theorem mint_sender_equals_owner_witness :
    (mkMintCall "sei1abc" (some "sei1contract")).senderAddress
      = (mkMintCall "sei1abc" (some "sei1contract")).msg.mint.owner
    ∧ ∀ a : Account, ∀ rest : List Account,
        okWorld.sdkFromMnemonicGetAccounts okWorld.envPRIVATE = .ok (a :: rest) →
        (mkMintCall "sei1abc" (some "sei1contract")).senderAddress = a.address :=
  mint_sender_equals_owner okWorld (mkMintCall "sei1abc" (some "sei1contract"))
    (List.mem_cons_of_mem _ (List.mem_cons_of_mem _ (List.mem_cons_self _ _)))

/-- C10: if the wallet yields an empty account list, the mint flow fails
at the destructuring of the first account: its whole trace is the single
local derivation attempt, so no connection is opened and no invocation is
attempted. -/
theorem mint_empty_accounts_fails_early (w : MintWorld)
    (hd : w.sdkFromMnemonicGetAccounts w.envPRIVATE = .ok []) :
    (mintFlow w).2 = .error emptyAccountsError
    ∧ (mintFlow w).1 = [Event.deriveAttempt w.envPRIVATE seiHrp] := by
  simp [mintFlow, hd]

/-- C10 witness: the empty-accounts theorem instantiated at the concrete
world whose wallet yields no accounts. -/
theorem mint_empty_accounts_fails_early_witness :
    (mintFlow emptyAccountsWorld).2 = .error emptyAccountsError
    ∧ (mintFlow emptyAccountsWorld).1
      = [Event.deriveAttempt emptyAccountsWorld.envPRIVATE seiHrp] :=
  mint_empty_accounts_fails_early emptyAccountsWorld rfl

end CwNfts
